import Mathlib

/-!
# Verification of the GLIR interpreter (`vispy/gloo/glir.py`)

A shallow embedding of the GLIR command interpreter: the command parser with
its object registry (`GlirParser`), and the per-object state machines
(`GlirProgram`, `GlirBuffer`, `GlirTexture2D`, `GlirTexture3D`).  Native
OpenGL calls are modelled as events appended to a trace; Python exceptions
are modelled with `Except`.
-/

/-- The kinds of managed objects the parser can construct
(the values of `GlirParser._classmap`). -/
inductive GKind where
  | vertexbuffer
  | indexbuffer
  | program
  | texture2D
  | texture3D
deriving DecidableEq, Repr

/-- A GLIR command tuple `(cmd, id, *args)`.  `CREATE` carries the kind tag
(`args[0]`, a string, or `None` for a failed upstream creation); every verb
other than `CREATE`/`DELETE` is kept as its raw string so that unrecognized
verbs are representable. -/
inductive Command where
  | create (id : Int) (kind : Option String)
  | delete (id : Int)
  | verb (v : String) (id : Int)
deriving DecidableEq, Repr

/-- Observable effects of `GlirParser.parse`: the native-resource release done
by `ob.delete()`, the `print` diagnostics, and the dispatch of a verb to a
registered object's method. -/
inductive Effect where
  | nativeRelease (kind : GKind) (id : Int)
  | diagnostic (msg : String)
  | objectOp (v : String) (id : Int)
deriving DecidableEq, Repr

/-- Python dict lookup `m.get(k, None)` on an association list with unique
keys (the registry `GlirParser._objects`). -/
def dictGet (m : List (Int × GKind)) (k : Int) : Option GKind :=
  (m.find? (fun p => p.1 == k)).map (fun p => p.2)

/-- Python dict assignment `m[k] = v`: replace the existing entry for `k`,
else append (dict insertion order). -/
def dictSet (m : List (Int × GKind)) (k : Int) (v : GKind) : List (Int × GKind) :=
  if m.any (fun p => p.1 == k) then
    m.map (fun p => if p.1 == k then (k, v) else p)
  else
    m ++ [(k, v)]

/-- The mutable state of a `GlirParser`: the handle registry `_objects` and
the `_invalid_objects` set (modelled as a list with set semantics). -/
structure ParserSt where
  objects : List (Int × GKind)
  invalid_objects : List Int
deriving DecidableEq, Repr

/-- `GlirParser.__init__`: empty registry, empty invalid set. -/
def ParserSt.init : ParserSt := ⟨[], []⟩

/-- The `_classmap` of `GlirParser.__init__` (lines 83-89).  Note the keys
exactly as written in the source: the buffer and program tags are uppercase
while the two texture tags are spelled `Texture2D` and `Texture3D`.
A key outside this map raises `KeyError` in `self._classmap[args[0]]`. -/
def classmap (kind : String) : Option GKind :=
  if kind = "VERTEXBUFFER" then some GKind.vertexbuffer
  else if kind = "INDEXBUFFER" then some GKind.indexbuffer
  else if kind = "PROGRAM" then some GKind.program
  else if kind = "Texture2D" then some GKind.texture2D
  else if kind = "Texture3D" then some GKind.texture3D
  else none

/-- The verbs the dispatch chain of `GlirParser.parse` recognizes after
`CREATE`/`DELETE` (lines 124-141). -/
def knownVerbs : List String :=
  ["ACTIVATE", "DEACTIVATE", "SIZE", "DATA", "SHADERS", "UNIFORM",
   "ATTRIBUTE", "DRAW", "SET"]

/-- One iteration of the loop in `GlirParser.parse` (lines 100-143).
`CREATE` with a non-`None` kind looks the kind up in `_classmap` (a missing
key is a `KeyError`, modelled as `.error`) and registers a fresh object under
the handle; `CREATE` with `None` records the handle as invalid.  `DELETE`
calls `ob.delete()` when the handle is registered — and, exactly as in the
source, does *not* remove the handle from `_objects`.  Any other verb on an
unregistered handle prints a diagnostic unless the handle is invalid; on a
registered handle it dispatches to the object's method (an unrecognized verb
prints the `Invalud GLIR command` diagnostic). -/
def GlirParser.parseOne (st : ParserSt) (c : Command) :
    Except String (ParserSt × List Effect) :=
  match c with
  | Command.create id kind =>
    match kind with
    | some k =>
      match classmap k with
      | some g => Except.ok ({ st with objects := dictSet st.objects id g }, [])
      | none => Except.error ("KeyError: " ++ k)
    | none =>
      Except.ok ({ st with invalid_objects :=
        if id ∈ st.invalid_objects then st.invalid_objects
        else st.invalid_objects ++ [id] }, [])
  | Command.delete id =>
    match dictGet st.objects id with
    | some g => Except.ok (st, [Effect.nativeRelease g id])
    | none => Except.ok (st, [])
  | Command.verb v id =>
    match dictGet st.objects id with
    | none =>
      if id ∈ st.invalid_objects then
        Except.ok (st, [])
      else
        Except.ok (st, [Effect.diagnostic ("Cannot " ++ v ++ " object " ++
          toString id ++ " because it does not exist")])
    | some _ =>
      if v ∈ knownVerbs then
        Except.ok (st, [Effect.objectOp v id])
      else
        Except.ok (st, [Effect.diagnostic ("Invalud GLIR command " ++ v)])

/-- `GlirParser.parse`: process the command list in order; an uncaught
exception (`KeyError` on an unknown CREATE kind) aborts the batch. -/
def GlirParser.parse (st : ParserSt) : List Command →
    Except String (ParserSt × List Effect)
  | [] => Except.ok (st, [])
  | c :: cs =>
    match GlirParser.parseOne st c with
    | Except.error e => Except.error e
    | Except.ok (st1, es) =>
      match GlirParser.parse st1 cs with
      | Except.error e => Except.error e
      | Except.ok (st2, es2) => Except.ok (st2, es ++ es2)

/-! ## Native GL calls as trace events -/

def GL_ARRAY_BUFFER : Nat := 34962
def GL_ELEMENT_ARRAY_BUFFER : Nat := 34963
def GL_TEXTURE_2D : Nat := 3553
def GL_TEXTURE_3D : Nat := 32879
def GL_BYTE : Nat := 5120
def GL_UNPACK_ALIGNMENT : Nat := 3317

/-- A native graphics call issued by a managed object. -/
inductive GLCall where
  | glUseProgram (handle : Nat)
  | glBindBuffer (target : Nat) (handle : Nat)
  | glBufferData (target : Nat) (nbytes : Nat)
  | glTexImage2D (target level internalformat format gtype : Nat) (shape : List Nat)
  | glTexImage3D (target level internalformat format gtype : Nat) (shape : List Nat)
  | glTexSubImage2D (target : Nat) (level : Nat) (x y : Int) (format gtype : Nat)
  | glTexSubImage3D (target : Nat) (level : Nat) (x y z : Int) (format gtype : Nat)
  | glPixelStorei (pname value : Nat)
  | glUniform1i (location : Int) (value : Int)
deriving DecidableEq, Repr

/-! ## `GlirProgram.use_this_program` and the per-context current program -/

/-- A Python value that can sit in `GlirParser._current_program`: the integer
`0` written by `GlirProgram.__init__`, or the value of the bare name `id` —
which in `use_this_program` is the Python *builtin function* `id` (the method
has no local or parameter named `id`). -/
inductive PyVal where
  | pyInt (n : Int)
  | pyIdBuiltin
deriving DecidableEq, Repr

/-- The per-context state threaded through program activation: the
`_current_program` attribute the parser carries for `use_this_program`. -/
structure GlirContextSt where
  current_program : PyVal
deriving DecidableEq, Repr

/-- `GlirProgram.__init__` (line 193): `self._parser._current_program = 0`. -/
def GlirProgram.init_current (ctx : GlirContextSt) : GlirContextSt :=
  { ctx with current_program := PyVal.pyInt 0 }

/-- `GlirProgram.use_this_program` (lines 207-214), transcribed exactly:
`if id != self._parser._current_program:` compares the Python builtin `id`
(not the program's handle or identity) with the stored current program; when
they differ it stores the builtin into `_current_program` and issues
`glUseProgram(self._handle)`. -/
def use_this_program (progHandle : Nat) (ctx : GlirContextSt) :
    GlirContextSt × List GLCall :=
  if PyVal.pyIdBuiltin ≠ ctx.current_program then
    ({ ctx with current_program := PyVal.pyIdBuiltin },
     [GLCall.glUseProgram progHandle])
  else
    (ctx, [])

/-! ## `GlirProgram._get_free_unit` -/

/-- Python `min(u :: us)`. -/
def pyListMin (u : Nat) (us : List Nat) : Nat := us.foldl Nat.min u

/-- Python `max(u :: us)`. -/
def pyListMax (u : Nat) (us : List Nat) : Nat := us.foldl Nat.max u

/-- `GlirProgram._get_free_unit` (lines 433-444).  The source's
`set(range(min_unit+1, max_unit)).difference(units).pop()` removes an
arbitrary member of the difference; we model the choice as the first element
in ascending order (`headD 0` of the ordered candidates, the default `0`
unreachable because the difference is nonempty in that branch).  Every
property proved below uses only membership in the difference, or a branch
where the difference is a singleton, so it is independent of the choice. -/
def _get_free_unit (units : List Nat) : Nat :=
  match units with
  | [] => 1
  | u :: us =>
    let min_unit := pyListMin u us
    let max_unit := pyListMax u us
    if 1 < min_unit then
      min_unit - 1
    else if (u :: us).length < max_unit - min_unit + 1 then
      ((List.range' (min_unit + 1) (max_unit - (min_unit + 1))).filter
          (fun x => decide (x ∉ u :: us))).headD 0
    else
      max_unit + 1

/-- The sampler branch of `GlirProgram.set_uniform` (lines 386-388):
`self._samplers.pop(name, None)`, then
`unit = self._get_free_unit([s[1] for s in self._samplers.values()])`, then
`self._samplers[name] = tex, unit`.  `_samplers` is a dict
`name -> (texture, unit)`, modelled as an association list in insertion
order; returns the new map and the assigned unit. -/
def samplerAssign (samplers : List (String × Nat × Nat)) (name : String)
    (tex : Nat) : List (String × Nat × Nat) × Nat :=
  let m := samplers.filter (fun e => e.1 ≠ name)
  let unit := _get_free_unit (m.map (fun e => e.2.2))
  (m ++ [(name, (tex, unit))], unit)

/-! ## `GlirProgram` state and `set_shaders` -/

/-- The per-program bookkeeping attributes of `GlirProgram.__init__`
(lines 196-202): the `_handles` location cache, the `_unset_variables`
tracking set, the `_samplers` map `name -> (texture, unit)` and the
`_buffers` map `name -> vertex buffer` (the two Python sets/dicts are
modelled as lists in insertion order). -/
structure ProgSt where
  handles : List (String × Int)
  unset_variables : List String
  samplers : List (String × Nat × Nat)
  buffers : List (String × Nat)
deriving DecidableEq, Repr

def isWordChar (c : Char) : Bool := c.isAlphanum || c = '_'

/-- The regex `(?P<name>\w+)\s*(\[(?P<size>\d+)\])\s*` applied with
`re.match` in `_get_active_attributes_and_uniforms` (lines 289, 300): a
leading run of word characters, optional spaces, then a bracketed digit
group.  Returns the `name` group on a match (the matched `size` digits are
ignored by the source, which expands with the GL-reported size instead). -/
def matchArrayName (s : String) : Option String :=
  let cs := s.toList
  let nm := cs.takeWhile isWordChar
  let rest := (cs.dropWhile isWordChar).dropWhile (fun c => c = ' ')
  match rest with
  | '[' :: rest2 =>
    let ds := rest2.takeWhile Char.isDigit
    match rest2.dropWhile Char.isDigit with
    | ']' :: _ => if nm ≠ [] ∧ ds ≠ [] then some (String.mk nm) else none
    | _ => none
  | _ => none

/-- Expansion of one introspected variable `(name, size)` as in lines
300-306: an array name `xxx[0]` contributes `xxx[0] … xxx[size-1]`, any
other name contributes itself. -/
def expandActiveVar (nv : String × Nat) : List String :=
  match matchArrayName nv.1 with
  | some base =>
    (List.range nv.2).map (fun i => base ++ "[" ++ toString i ++ "]")
  | none => [nv.1]

/-- `GlirProgram._get_active_attributes_and_uniforms` (lines 284-308), with
the GL introspection results (`glGetActiveAttrib` / `glGetActiveUniform`,
each a `(name, size)` pair) supplied as inputs: expand each variable and
return the set of names (a deduplicated list models the Python `set`). -/
def _get_active_attributes_and_uniforms
    (attributesRaw uniformsRaw : List (String × Nat)) : List String :=
  ((attributesRaw ++ uniformsRaw).flatMap expandActiveVar).dedup

/-- The success path of `GlirProgram.set_shaders` (lines 246-282): both
stages compile and the program links, the temporary shader objects are
released, and then — the only writes to the program's bookkeeping state —
line 281 recomputes `_unset_variables` from the active-variable
introspection and line 282 clears the `_handles` location cache.
`_samplers` and `_buffers` are not touched by the method. -/
def ProgSt.set_shaders_success (p : ProgSt)
    (attributesRaw uniformsRaw : List (String × Nat)) : ProgSt :=
  { p with
    unset_variables :=
      _get_active_attributes_and_uniforms attributesRaw uniformsRaw,
    handles := [] }

/-! ## `GlirBuffer` -/

/-- The state of a `GlirBuffer` (lines 468-475): native handle, fixed
binding target, and the `_buffer_size` byte count (initially `0`). -/
structure Buf where
  handle : Nat
  target : Nat
  buffer_size : Nat
deriving DecidableEq, Repr

/-- `GlirBuffer.set_size` (lines 486-490): only when `nbytes` differs from
`_buffer_size`, bind the buffer, issue `glBufferData` (the native
reallocation), and record the new size. -/
def Buf.set_size (b : Buf) (nbytes : Nat) : Buf × List GLCall :=
  if nbytes ≠ b.buffer_size then
    ({ b with buffer_size := nbytes },
     [GLCall.glBindBuffer b.target b.handle,
      GLCall.glBufferData b.target nbytes])
  else
    (b, [])

/-- Number of native buffer reallocations (`glBufferData` calls) in a
trace. -/
def countBufferData (calls : List GLCall) : Nat :=
  calls.countP (fun c => match c with
    | GLCall.glBufferData _ _ => true
    | _ => false)

/-! ## `GlirTexture` (2D and 3D) -/

/-- The value of a texture's `_shape_format` attribute: the integer `0`
written by `GlirTexture.__init__` (line 562), or a `(shape, format)`
tuple.  The source's `set_size` methods compare `(shape, format)` against
this attribute but never assign a tuple to it. -/
inductive ShapeFormat where
  | zero
  | pair (shape : List Nat) (format : Nat)
deriving DecidableEq, Repr

/-- The `_types` table of `GlirTexture` (lines 548-558), keyed by numpy
dtype; the `float16` and `float64` entries are commented out in the source,
so those dtypes are absent from the table. -/
inductive NPDtype where
  | int8
  | uint8
  | int16
  | uint16
  | int32
  | uint32
  | float16
  | float32
  | float64
deriving DecidableEq, Repr

def GlirTexture.types : NPDtype → Option Nat
  | NPDtype.int8 => some 5120
  | NPDtype.uint8 => some 5121
  | NPDtype.int16 => some 5122
  | NPDtype.uint16 => some 5123
  | NPDtype.int32 => some 5124
  | NPDtype.uint32 => some 5125
  | NPDtype.float16 => none
  | NPDtype.float32 => some 5126
  | NPDtype.float64 => none

/-- A numpy array payload, reduced to the parts the texture methods read:
its element dtype and its shape. -/
structure NDArray where
  dtype : NPDtype
  shape : List Nat
deriving DecidableEq, Repr

/-- A raised Python exception. -/
inductive PyError where
  | valueError (msg : String)
  | attributeError (name : String)
deriving DecidableEq, Repr

/-- `GlirTexture._get_alignment` (lines 575-592): the first of `[4, 8, 2, 1]`
that evenly divides the row byte width. -/
def _get_alignment (width : Nat) : Nat :=
  if width % 4 = 0 then 4
  else if width % 8 = 0 then 8
  else if width % 2 = 0 then 2
  else 1

/-- The state of a `GlirTexture2D`: native handle, the `_shape_format`
attribute, and the `_format` attribute — which does not exist before the
first `set_size` call (modelled with `Option`). -/
structure Tex2D where
  handle : Nat
  shape_format : ShapeFormat
  format : Option Nat
deriving DecidableEq, Repr

/-- `GlirTexture2D.set_size` (lines 613-618): when `(shape, format)` differs
from `_shape_format`, store `_format` and issue `glTexImage2D`.  As in the
source, `_shape_format` itself is never assigned. -/
def Tex2D.set_size (t : Tex2D) (shape : List Nat) (format : Nat) :
    Tex2D × List GLCall :=
  if ShapeFormat.pair shape format ≠ t.shape_format then
    ({ t with format := some format },
     [GLCall.glTexImage2D GL_TEXTURE_2D 0 format format GL_BYTE
        (shape.take 2)])
  else
    (t, [])

/-- `GlirTexture2D.set_data` (lines 620-636).  `offset` is the `(y, x)`
pair.  Line 624 (`print(gtype, self._format)`) reads `self._format`, so a
texture never sized raises `AttributeError` there; line 625 then raises
`ValueError` when the dtype is absent from the `_types` table; otherwise the
alignment is set if needed, the sub-region upload is issued, and the
alignment is restored. -/
def Tex2D.set_data (t : Tex2D) (offset : Int × Int) (data : NDArray) :
    Except PyError (List GLCall) :=
  let gtype := GlirTexture.types data.dtype
  match t.format with
  | none => Except.error (PyError.attributeError "_format")
  | some fmt =>
    match gtype with
    | none =>
      Except.error (PyError.valueError "Type not allowed for texture")
    | some gt =>
      let width := (data.shape.reverse.getD 1 0) * (data.shape.reverse.getD 0 0)
      let alignment := _get_alignment width
      let pre :=
        if alignment ≠ 4 then
          [GLCall.glPixelStorei GL_UNPACK_ALIGNMENT alignment]
        else []
      let post :=
        if alignment ≠ 4 then [GLCall.glPixelStorei GL_UNPACK_ALIGNMENT 4]
        else []
      Except.ok (pre ++
        [GLCall.glTexSubImage2D GL_TEXTURE_2D 0 offset.2 offset.1 fmt gt] ++
        post)

/-- The state of a `GlirTexture3D`, same attributes as `Tex2D`. -/
structure Tex3D where
  handle : Nat
  shape_format : ShapeFormat
  format : Option Nat
deriving DecidableEq, Repr

/-- `GlirTexture3D.set_size` (lines 674-679): when `(shape, format)` differs
from `_shape_format`, store `_format` and issue the `glTexImage3D` upload
path.  As in the source, `_shape_format` is never assigned. -/
def Tex3D.set_size (t : Tex3D) (shape : List Nat) (format : Nat) :
    Tex3D × List GLCall :=
  if ShapeFormat.pair shape format ≠ t.shape_format then
    ({ t with format := some format },
     [GLCall.glTexImage3D GL_TEXTURE_3D 0 format format GL_BYTE
        (shape.take 3)])
  else
    (t, [])

/-- `GlirTexture3D.set_data` (lines 681-697).  Line 684 reads
`np.dtype(self.dtype)` — but no class in the file (`GlirTexture3D`,
`GlirTexture`, `GlirObject`) ever assigns an attribute named `dtype`, so
every call raises `AttributeError` on that line, before the type-table
lookup, the `ValueError` check, or any upload can happen. -/
def Tex3D.set_data (_t : Tex3D) (_offset : Int × Int × Int)
    (_data : NDArray) : Except PyError (List GLCall) :=
  Except.error (PyError.attributeError "dtype")

/-! ## Helper lemmas about `pyListMin`, `pyListMax` and `_get_free_unit` -/

theorem pyListMin_mem (u : Nat) (us : List Nat) : pyListMin u us ∈ u :: us := by
  induction us generalizing u with
  | nil => simp [pyListMin]
  | cons v vs ih =>
    have h : pyListMin u (v :: vs) = pyListMin (Nat.min u v) vs := rfl
    rw [h]
    rcases List.mem_cons.mp (ih (Nat.min u v)) with h1 | h2
    · rw [h1]
      rcases Nat.le_total u v with hle | hle
      · have hm : Nat.min u v = u := Nat.min_eq_left hle
        rw [hm]
        exact List.mem_cons_self _ _
      · have hm : Nat.min u v = v := Nat.min_eq_right hle
        rw [hm]
        exact List.mem_cons_of_mem _ (List.mem_cons_self _ _)
    · exact List.mem_cons_of_mem _ (List.mem_cons_of_mem _ h2)

theorem pyListMin_le (u : Nat) (us : List Nat) :
    ∀ x ∈ u :: us, pyListMin u us ≤ x := by
  induction us generalizing u with
  | nil =>
    intro x hx
    simp only [List.mem_cons, List.not_mem_nil, or_false] at hx
    simp [pyListMin, hx]
  | cons v vs ih =>
    intro x hx
    have h : pyListMin u (v :: vs) = pyListMin (Nat.min u v) vs := rfl
    rw [h]
    rcases List.mem_cons.mp hx with h1 | hx2
    · rw [h1]
      exact le_trans (ih (Nat.min u v) _ (List.mem_cons_self _ _))
        (Nat.min_le_left _ _)
    · rcases List.mem_cons.mp hx2 with h2 | h3
      · rw [h2]
        exact le_trans (ih (Nat.min u v) _ (List.mem_cons_self _ _))
          (Nat.min_le_right _ _)
      · exact ih (Nat.min u v) x (List.mem_cons_of_mem _ h3)

theorem pyListMax_mem (u : Nat) (us : List Nat) : pyListMax u us ∈ u :: us := by
  induction us generalizing u with
  | nil => simp [pyListMax]
  | cons v vs ih =>
    have h : pyListMax u (v :: vs) = pyListMax (Nat.max u v) vs := rfl
    rw [h]
    rcases List.mem_cons.mp (ih (Nat.max u v)) with h1 | h2
    · rw [h1]
      rcases Nat.le_total u v with hle | hle
      · have hm : Nat.max u v = v := Nat.max_eq_right hle
        rw [hm]
        exact List.mem_cons_of_mem _ (List.mem_cons_self _ _)
      · have hm : Nat.max u v = u := Nat.max_eq_left hle
        rw [hm]
        exact List.mem_cons_self _ _
    · exact List.mem_cons_of_mem _ (List.mem_cons_of_mem _ h2)

theorem le_pyListMax (u : Nat) (us : List Nat) :
    ∀ x ∈ u :: us, x ≤ pyListMax u us := by
  induction us generalizing u with
  | nil =>
    intro x hx
    simp only [List.mem_cons, List.not_mem_nil, or_false] at hx
    simp [pyListMax, hx]
  | cons v vs ih =>
    intro x hx
    have h : pyListMax u (v :: vs) = pyListMax (Nat.max u v) vs := rfl
    rw [h]
    rcases List.mem_cons.mp hx with h1 | hx2
    · rw [h1]
      exact le_trans (Nat.le_max_left _ _)
        (ih (Nat.max u v) _ (List.mem_cons_self _ _))
    · rcases List.mem_cons.mp hx2 with h2 | h3
      · rw [h2]
        exact le_trans (Nat.le_max_right _ _)
          (ih (Nat.max u v) _ (List.mem_cons_self _ _))
      · exact ih (Nat.max u v) x (List.mem_cons_of_mem _ h3)

/-- When the list has fewer elements than its min-to-max span, some value
strictly between the minimum and the maximum is missing from it. -/
theorem gap_exists (u : Nat) (us : List Nat)
    (hlen : (u :: us).length < pyListMax u us - pyListMin u us + 1) :
    ∃ c, pyListMin u us < c ∧ c < pyListMax u us ∧ c ∉ u :: us := by
  set l := u :: us with hl
  set m := pyListMin u us with hm
  set M := pyListMax u us with hM
  have hmM : m ≤ M := pyListMin_le u us _ (pyListMax_mem u us)
  have hsub : l.toFinset ⊆ Finset.Icc m M := by
    intro x hx
    rw [List.mem_toFinset] at hx
    rw [Finset.mem_Icc]
    exact ⟨pyListMin_le u us x hx, le_pyListMax u us x hx⟩
  have hcard : l.toFinset.card < (Finset.Icc m M).card := by
    have h1 : l.toFinset.card ≤ l.length := l.toFinset_card_le
    have h2 : (Finset.Icc m M).card = M + 1 - m := Nat.card_Icc m M
    omega
  have hne : l.toFinset ≠ Finset.Icc m M := by
    intro heq
    rw [heq] at hcard
    exact lt_irrefl _ hcard
  obtain ⟨c, hc, hcn⟩ :=
    Finset.exists_of_ssubset (HasSubset.Subset.ssubset_of_ne hsub hne)
  rw [Finset.mem_Icc] at hc
  rw [List.mem_toFinset] at hcn
  have hcm : c ≠ m := by
    intro h
    exact hcn (h ▸ pyListMin_mem u us)
  have hcM : c ≠ M := by
    intro h
    exact hcn (h ▸ pyListMax_mem u us)
  exact ⟨c, lt_of_le_of_ne hc.1 (Ne.symm hcm), lt_of_le_of_ne hc.2 hcM, hcn⟩

/-- `_get_free_unit` always returns a unit that is not in the supplied list
and is at least `1`. -/
theorem get_free_unit_fresh (units : List Nat) :
    _get_free_unit units ∉ units ∧ 1 ≤ _get_free_unit units := by
  match units with
  | [] => simp [_get_free_unit]
  | u :: us =>
    rw [_get_free_unit]
    by_cases h1 : 1 < pyListMin u us
    · rw [if_pos h1]
      refine ⟨fun hmem => ?_, by omega⟩
      have := pyListMin_le u us _ hmem
      omega
    · rw [if_neg h1]
      by_cases h2 : (u :: us).length < pyListMax u us - pyListMin u us + 1
      · rw [if_pos h2]
        obtain ⟨c, hc1, hc2, hc3⟩ := gap_exists u us h2
        have hcmem : c ∈ (List.range' (pyListMin u us + 1)
            (pyListMax u us - (pyListMin u us + 1))).filter
            (fun x => decide (x ∉ u :: us)) := by
          rw [List.mem_filter]
          refine ⟨?_, by simpa using hc3⟩
          rw [List.mem_range']
          refine ⟨c - (pyListMin u us + 1), by omega, by omega⟩
        cases hf : (List.range' (pyListMin u us + 1)
            (pyListMax u us - (pyListMin u us + 1))).filter
            (fun x => decide (x ∉ u :: us)) with
        | nil => rw [hf] at hcmem; cases hcmem
        | cons a as =>
          have ha : a ∈ (List.range' (pyListMin u us + 1)
              (pyListMax u us - (pyListMin u us + 1))).filter
              (fun x => decide (x ∉ u :: us)) := by
            rw [hf]; exact List.mem_cons_self _ _
          rw [List.mem_filter] at ha
          have ha1 := ha.1
          rw [List.mem_range'] at ha1
          obtain ⟨i, hi, hia⟩ := ha1
          have ha2 : a ∉ u :: us := by simpa using ha.2
          simp only [List.headD_cons]
          exact ⟨ha2, by omega⟩
      · rw [if_neg h2]
        refine ⟨fun hmem => ?_, by omega⟩
        have := le_pyListMax u us _ hmem
        omega

/-! ## Claim theorems -/

/-- C1: the claim says processing `DELETE(h)` releases the native resource
and removes the handle from the registry, so that a subsequent non-CREATE
verb on `h` takes the unknown-handle diagnostic path.  The code releases the
resource but `GlirParser.parse` never removes the handle from `_objects`
(lines 110-114 call `ob.delete()` and nothing else), so a subsequent
`ACTIVATE` is dispatched to the released object with no diagnostic.  This
theorem evaluates the interpreter at the failing input: after
`CREATE(7) ; DELETE(7)`, handle `7` is still registered and `ACTIVATE 7`
produces an `objectOp` dispatch, not a diagnostic. -/
theorem delete_leaves_handle_registered :
    GlirParser.parse ParserSt.init
      [Command.create 7 (some "VERTEXBUFFER"), Command.delete 7,
       Command.verb "ACTIVATE" 7] =
    Except.ok (⟨[(7, GKind.vertexbuffer)], []⟩,
      [Effect.nativeRelease GKind.vertexbuffer 7,
       Effect.objectOp "ACTIVATE" 7]) := by rfl

/-- C2 counterexample: the claim says a handle marked invalid by
`CREATE(h, None)` is never created afterwards.  But `GlirParser.parse` does
not consult `_invalid_objects` on `CREATE` (lines 103-109), so
`CREATE(1, None) ; CREATE(1, PROGRAM) ; ACTIVATE(1)` registers an object
under handle `1` and then dispatches `ACTIVATE` to it — the handle is both
created and acted upon. -/
theorem create_after_invalid_counterexample :
    GlirParser.parse ParserSt.init
      [Command.create 1 none, Command.create 1 (some "PROGRAM"),
       Command.verb "ACTIVATE" 1] =
    Except.ok (⟨[(1, GKind.program)], [1]⟩,
      [Effect.objectOp "ACTIVATE" 1]) := by rfl

/-- C2 (amended): while an invalid handle is unregistered, every `DELETE`
and every non-CREATE verb on it is a silent no-op (no diagnostic, no
object operation, state unchanged); but a later `CREATE(h, kind)` with a
known kind does construct and register an object under `h`. -/
theorem invalid_handle_silent (st : ParserSt) (h : Int) (v k : String)
    (g : GKind)
    (hinv : h ∈ st.invalid_objects)
    (hobj : dictGet st.objects h = none)
    (hk : classmap k = some g) :
    GlirParser.parseOne st (Command.delete h) = Except.ok (st, []) ∧
    GlirParser.parseOne st (Command.verb v h) = Except.ok (st, []) ∧
    GlirParser.parseOne st (Command.create h (some k)) =
      Except.ok ({ st with objects := dictSet st.objects h g }, []) := by
  refine ⟨?_, ?_, ?_⟩
  · simp [GlirParser.parseOne, hobj]
  · simp [GlirParser.parseOne, hobj, hinv]
  · simp [GlirParser.parseOne, hk]

theorem invalid_handle_silent_witness :
    GlirParser.parseOne ⟨[], [1]⟩ (Command.verb "SIZE" 1) =
      Except.ok (⟨[], [1]⟩, []) :=
  (invalid_handle_silent ⟨[], [1]⟩ 1 "SIZE" "PROGRAM" GKind.program
    (by decide) (by decide) (by decide)).2.1

/-- C3 counterexample: the claim says all five documented uppercase kind
tags are found in the kind-to-constructor map.  The map's texture keys are
spelled `Texture2D` and `Texture3D` (lines 86-87), so a CREATE carrying the
documented uppercase tag `TEXTURE2D` or `TEXTURE3D` hits the hard
`KeyError` path. -/
theorem create_uppercase_kind_counterexample :
    GlirParser.parse ParserSt.init [Command.create 1 (some "TEXTURE2D")] =
      Except.error "KeyError: TEXTURE2D" ∧
    GlirParser.parse ParserSt.init [Command.create 1 (some "TEXTURE3D")] =
      Except.error "KeyError: TEXTURE3D" := ⟨rfl, rfl⟩

/-- C3 (amended): the kind-to-constructor map contains exactly the keys
`VERTEXBUFFER`, `INDEXBUFFER`, `PROGRAM`, `Texture2D`, `Texture3D`; a
CREATE whose kind is one of these constructs and registers an object under
the handle, and the hard error on the kind lookup occurs exactly for kinds
outside this set — which includes the uppercase spellings `TEXTURE2D` and
`TEXTURE3D`. -/
theorem create_known_kind_registers (st : ParserSt) (id : Int) (k : String)
    (g : GKind) (hk : classmap k = some g) :
    GlirParser.parseOne st (Command.create id (some k)) =
      Except.ok ({ st with objects := dictSet st.objects id g }, []) ∧
    (k = "VERTEXBUFFER" ∨ k = "INDEXBUFFER" ∨ k = "PROGRAM" ∨
      k = "Texture2D" ∨ k = "Texture3D") ∧
    classmap "VERTEXBUFFER" = some GKind.vertexbuffer ∧
    classmap "INDEXBUFFER" = some GKind.indexbuffer ∧
    classmap "PROGRAM" = some GKind.program ∧
    classmap "Texture2D" = some GKind.texture2D ∧
    classmap "Texture3D" = some GKind.texture3D ∧
    classmap "TEXTURE2D" = none ∧
    classmap "TEXTURE3D" = none := by
  refine ⟨by simp [GlirParser.parseOne, hk], ?_, by decide, by decide,
    by decide, by decide, by decide, by decide, by decide⟩
  unfold classmap at hk
  split_ifs at hk with h1 h2 h3 h4 h5
  · exact Or.inl h1
  · exact Or.inr (Or.inl h2)
  · exact Or.inr (Or.inr (Or.inl h3))
  · exact Or.inr (Or.inr (Or.inr (Or.inl h4)))
  · exact Or.inr (Or.inr (Or.inr (Or.inr h5)))

theorem create_known_kind_registers_witness :
    GlirParser.parseOne ParserSt.init (Command.create 2 (some "Texture2D")) =
      Except.ok (⟨[(2, GKind.texture2D)], []⟩, []) :=
  (create_known_kind_registers ParserSt.init 2 "Texture2D" GKind.texture2D
    (by decide)).1

/-- C4: the claim says the native use-program call is issued exactly when
the program is not the tracked current program.  But `use_this_program`
(lines 207-214) compares the Python *builtin function* `id` with
`_current_program` (`if id != self._parser._current_program`), so the first
call stores the builtin and every later call — here for a *different*
program with handle 20 — finds `id != id` false and skips `glUseProgram`
even though that program was never made current. -/
theorem use_program_skipped_for_other_program :
    (use_this_program 10 (GlirProgram.init_current ⟨PyVal.pyInt 0⟩) =
      (⟨PyVal.pyIdBuiltin⟩, [GLCall.glUseProgram 10])) ∧
    (use_this_program 20 ⟨PyVal.pyIdBuiltin⟩ =
      (⟨PyVal.pyIdBuiltin⟩, [])) := by decide

/-- C5 counterexample: the claim says a successful `set_shaders` resets the
sampler and buffer associations to empty.  The success path of
`set_shaders` writes only `_unset_variables` and `_handles` (lines
281-282); on a program with a bound sampler and a bound attribute buffer
both survive the relink unchanged. -/
theorem set_shaders_keeps_bindings_counterexample :
    (ProgSt.set_shaders_success
      ⟨[("u_tex", 3)], [], [("u_tex", (7, 1))], [("a_pos", 5)]⟩
      [("a_pos", 1)] [("u_tex", 1)]).samplers = [("u_tex", (7, 1))] ∧
    (ProgSt.set_shaders_success
      ⟨[("u_tex", 3)], [], [("u_tex", (7, 1))], [("a_pos", 5)]⟩
      [("a_pos", 1)] [("u_tex", 1)]).buffers = [("a_pos", 5)] := by decide

/-- C5 (amended): after every successful `set_shaders`, the location cache
is cleared and the unset-variable tracking set is recomputed to the
active-variable introspection result (arrays expanded to one indexed name
per element, as the concrete expansion conjunct shows); the sampler and
buffer associations are NOT reset — they persist across the relink. -/
theorem set_shaders_resets_caches (p : ProgSt)
    (attributesRaw uniformsRaw : List (String × Nat)) :
    (p.set_shaders_success attributesRaw uniformsRaw).handles = [] ∧
    (p.set_shaders_success attributesRaw uniformsRaw).unset_variables =
      _get_active_attributes_and_uniforms attributesRaw uniformsRaw ∧
    (p.set_shaders_success attributesRaw uniformsRaw).samplers =
      p.samplers ∧
    (p.set_shaders_success attributesRaw uniformsRaw).buffers = p.buffers ∧
    _get_active_attributes_and_uniforms [("pos", 1)] [("mat[0]", 3)] =
      ["pos", "mat[0]", "mat[1]", "mat[2]"] :=
  ⟨rfl, rfl, rfl, rfl, by decide⟩

/-- C6: the claim says a repeated `set_size` with the current cached
`(shape, format)` performs no reallocation and that the cache reflects the
last allocation.  But neither `GlirTexture2D.set_size` (lines 613-618) nor
`GlirTexture3D.set_size` (lines 674-679) ever assigns `_shape_format`, which
keeps the initial integer `0` forever, so the second identical call issues
the full `glTexImage2D`/`glTexImage3D` reallocation again. -/
theorem texture_set_size_always_reallocates :
    (((Tex2D.set_size ⟨1, ShapeFormat.zero, none⟩ [4, 4] 6408).1.set_size
        [4, 4] 6408).2 =
      [GLCall.glTexImage2D GL_TEXTURE_2D 0 6408 6408 GL_BYTE [4, 4]]) ∧
    ((Tex2D.set_size ⟨1, ShapeFormat.zero, none⟩ [4, 4] 6408).1.shape_format =
      ShapeFormat.zero) ∧
    (((Tex3D.set_size ⟨1, ShapeFormat.zero, none⟩ [4, 4, 4] 6408).1.set_size
        [4, 4, 4] 6408).2 =
      [GLCall.glTexImage3D GL_TEXTURE_3D 0 6408 6408 GL_BYTE [4, 4, 4]]) := by
  decide

/-- C7 counterexample: the claim says two consecutive `set_size(nbytes)`
calls with the same `nbytes` trigger exactly one native reallocation, for
every buffer and every `nbytes`.  On a fresh buffer (`_buffer_size = 0`)
with `nbytes = 0`, neither call issues any native call: zero reallocations,
not one. -/
theorem buffer_set_size_zero_counterexample :
    countBufferData ((Buf.set_size ⟨1, GL_ARRAY_BUFFER, 0⟩ 0).2 ++
      ((Buf.set_size ⟨1, GL_ARRAY_BUFFER, 0⟩ 0).1.set_size 0).2) = 0 := by
  decide

/-- C7 (amended): when `nbytes` differs from the buffer's current recorded
size, the first `set_size(nbytes)` binds the buffer, issues the
`glBufferData` reallocation and records `nbytes`; the second identical call
issues no native call at all, so the pair triggers exactly one
reallocation.  When `nbytes` already equals the current size, both calls
are no-ops (zero reallocations). -/
theorem buffer_set_size_idempotent (b : Buf) (nbytes : Nat)
    (h : nbytes ≠ b.buffer_size) :
    (b.set_size nbytes).2 =
      [GLCall.glBindBuffer b.target b.handle,
       GLCall.glBufferData b.target nbytes] ∧
    (b.set_size nbytes).1.buffer_size = nbytes ∧
    ((b.set_size nbytes).1.set_size nbytes).2 = [] ∧
    countBufferData ((b.set_size nbytes).2 ++
      ((b.set_size nbytes).1.set_size nbytes).2) = 1 := by
  simp [Buf.set_size, h, countBufferData]

theorem buffer_set_size_idempotent_witness :
    (16 : Nat) ≠ (⟨1, GL_ARRAY_BUFFER, 0⟩ : Buf).buffer_size ∧
    ((⟨1, GL_ARRAY_BUFFER, 0⟩ : Buf).set_size 16).1.buffer_size = 16 :=
  ⟨by decide,
   (buffer_set_size_idempotent ⟨1, GL_ARRAY_BUFFER, 0⟩ 16 (by decide)).2.1⟩

/-- C8: setting a sampler uniform first removes that name's previous
`(texture, unit)` entry, then assigns a unit that no other sampler of the
program currently holds, so the units recorded in the sampler map stay
pairwise distinct. -/
theorem sampler_units_pairwise_distinct
    (samplers : List (String × Nat × Nat)) (name : String) (tex : Nat)
    (hd : (samplers.map (fun e => e.2.2)).Nodup) :
    ((samplerAssign samplers name tex).1.map (fun e => e.2.2)).Nodup ∧
    (∀ e ∈ (samplerAssign samplers name tex).1, e.1 ≠ name →
      e.2.2 ≠ (samplerAssign samplers name tex).2) ∧
    (∀ e ∈ (samplerAssign samplers name tex).1, e.1 = name →
      e.2 = (tex, (samplerAssign samplers name tex).2)) := by
  have hres : samplerAssign samplers name tex =
      (samplers.filter (fun e => decide (e.1 ≠ name)) ++
        [(name, (tex, _get_free_unit ((samplers.filter
          (fun e => decide (e.1 ≠ name))).map (fun e => e.2.2))))],
       _get_free_unit ((samplers.filter
          (fun e => decide (e.1 ≠ name))).map (fun e => e.2.2))) := rfl
  set m := samplers.filter (fun e => decide (e.1 ≠ name)) with hmdef
  set u := _get_free_unit (m.map (fun e => e.2.2)) with hudef
  rw [hres]
  have hnodup_m : (m.map (fun e => e.2.2)).Nodup :=
    hd.sublist ((List.filter_sublist samplers).map (fun e => e.2.2))
  have hfresh := get_free_unit_fresh (m.map (fun e => e.2.2))
  refine ⟨?_, ?_, ?_⟩
  · rw [List.map_append]
    refine List.Nodup.append hnodup_m (List.nodup_singleton _) ?_
    intro a ha hb
    simp only [List.map_cons, List.map_nil, List.mem_singleton] at hb
    rw [hb] at ha
    exact hfresh.1 ha
  · intro e he hne
    rcases List.mem_append.mp he with hm | hs
    · intro hequ
      have hmm : e.2.2 ∈ m.map (fun e => e.2.2) :=
        List.mem_map_of_mem (fun e => e.2.2) hm
      rw [hequ] at hmm
      exact hfresh.1 hmm
    · rw [List.mem_singleton] at hs
      exact absurd (congrArg Prod.fst hs) hne
  · intro e he heq
    rcases List.mem_append.mp he with hm | hs
    · have := List.mem_filter.mp hm
      rw [decide_eq_true_eq] at this
      exact absurd heq this.2
    · rw [List.mem_singleton] at hs
      rw [hs]

theorem sampler_units_pairwise_distinct_witness :
    (([("a", (5, 1)), ("b", (6, 2))] :
        List (String × Nat × Nat)).map (fun e => e.2.2)).Nodup ∧
    ((samplerAssign [("a", (5, 1)), ("b", (6, 2))] "a" 9).1.map
      (fun e => e.2.2)).Nodup :=
  ⟨by decide,
   (sampler_units_pairwise_distinct [("a", (5, 1)), ("b", (6, 2))] "a" 9
     (by decide)).1⟩

/-- C9 counterexample: the claim says `_get_free_unit` returns the lowest
unused unit that is at least `1`.  For `[3, 4]` the lowest unused unit is
`1` (it is not in the list), but the `min_unit > 1` branch returns
`min_unit - 1 = 2`. -/
theorem get_free_unit_not_lowest_counterexample :
    _get_free_unit [3, 4] = 2 ∧ (1 : Nat) ∉ [3, 4] ∧ (1 : Nat) < 2 := by
  decide

/-- C9 (amended): `_get_free_unit` always returns a unit that is at least
`1` and not in the supplied list; for an empty list it returns `1`, it fills
a gap before extending past the maximum (`[1,2,4]` yields `3`), and when the
minimum used unit exceeds `1` it returns one below that minimum
(`[2,3]` yields `1`, but `[3,4]` yields `2`, not the lowest unused `1`). -/
theorem get_free_unit_policy :
    _get_free_unit [] = 1 ∧
    _get_free_unit [1, 2, 4] = 3 ∧
    _get_free_unit [2, 3] = 1 ∧
    _get_free_unit [3, 4] = 2 ∧
    (∀ units : List Nat,
      _get_free_unit units ∉ units ∧ 1 ≤ _get_free_unit units) :=
  ⟨by decide, by decide, by decide, by decide, get_free_unit_fresh⟩

/-- C10: the claim says 2D and 3D `set_data` alike translate the payload
dtype through the fixed type table and raise a clear unsupported-type error
otherwise.  The 2D path does (first three and fourth conjuncts: supported
dtypes upload, `float64`/`float16` raise `ValueError`, and the table is
undefined exactly on those two dtypes).  But `GlirTexture3D.set_data`
(line 684) reads `self.dtype` — an attribute never assigned anywhere — so
every 3D upload raises `AttributeError`, even for a supported `float32`
payload (last conjunct evaluates the code at that failing input). -/
theorem texture_set_data_type_table :
    (Tex2D.set_data ⟨1, ShapeFormat.zero, some 6408⟩ (0, 0)
        ⟨NPDtype.float32, [4, 4]⟩ =
      Except.ok [GLCall.glTexSubImage2D GL_TEXTURE_2D 0 0 0 6408 5126]) ∧
    (Tex2D.set_data ⟨1, ShapeFormat.zero, some 6408⟩ (0, 0)
        ⟨NPDtype.float64, [4, 4]⟩ =
      Except.error (PyError.valueError "Type not allowed for texture")) ∧
    (Tex2D.set_data ⟨1, ShapeFormat.zero, some 6408⟩ (0, 0)
        ⟨NPDtype.float16, [4, 4]⟩ =
      Except.error (PyError.valueError "Type not allowed for texture")) ∧
    (∀ d : NPDtype, GlirTexture.types d = none ↔
      d = NPDtype.float16 ∨ d = NPDtype.float64) ∧
    (Tex3D.set_data ⟨1, ShapeFormat.zero, some 6408⟩ (0, 0, 0)
        ⟨NPDtype.float32, [4, 4, 4]⟩ =
      Except.error (PyError.attributeError "dtype")) := by
  refine ⟨rfl, rfl, rfl, ?_, rfl⟩
  intro d
  cases d <;> simp [GlirTexture.types]
